import Mathlib

/-!
Verification of the HR-portal activity-monitoring agent's core
(`src/agent/agent_core/`): the `ActivityTracker` statistical scorer
(`tracker.py`), the `AgentState` popup/break state machine (`state.py`),
the heartbeat slice of the controller tick (`app.py`), the auto-clicker
process scan (`platform_win.py` / `constants.py`), and the offline
request buffer (`network.py`, `api.py`).

Conventions of the shallow embedding:
  * Python `float` timestamps/coordinates are modelled as exact rationals
    (`ℚ`); pixel coordinates as `ℤ` (Python `//` floor division is
    `Int.fdiv`).
  * `math.sqrt` is kept abstract: every function that uses it takes an
    explicit `sqrt : ℚ → ℚ` parameter applied exactly where the source
    applies `math.sqrt`.  All properties proved below hold for every
    interpretation of that parameter, and concrete witnesses instantiate
    it with an arbitrary total function.
  * A Python method mutating `self` becomes a function
    `State → State` (or `State → Result × State`).
  * `collections.deque(maxlen=n)` is a list on which `append` drops the
    oldest element once length `n` is reached (`dequeAppend`).
  * Python functions are total here; Lean totality models the contract
    that the source paths never raise (all divisions in the scorer are
    guarded by the source's own `≤ 0` / emptiness checks).
-/

namespace HRAgent

/-! ### constants.py -/

/-- `IDLE_THRESHOLD_SEC = 180` (constants.py). -/
def IDLE_THRESHOLD_SEC : ℚ := 180

/-- `HEARTBEAT_INTERVAL_SEC = 180` (constants.py). -/
def HEARTBEAT_INTERVAL_SEC : ℚ := 180

/-- `MOVE_THROTTLE_SEC = 0.5` (constants.py). -/
def MOVE_THROTTLE_SEC : ℚ := 0.5

/-- `PATTERN_BUFFER_SIZE = 30` (constants.py). -/
def PATTERN_BUFFER_SIZE : ℕ := 30

/-- `AUTOCLICKER_PROCESSES` (constants.py): known auto-clicker /
mouse-jiggler process names (lowercase).  The Python `frozenset` is
modelled as the list of its elements. -/
def AUTOCLICKER_PROCESSES : List String :=
  [ "autoclicker.exe"
  , "opautoclicker.exe"
  , "gs auto clicker.exe"
  , "gsautoclicker.exe"
  , "fast auto clicker.exe"
  , "free auto clicker.exe"
  , "auto mouse clicker.exe"
  , "automouseclicker.exe"
  , "mouse jiggler.exe"
  , "mousejiggler.exe"
  , "move mouse.exe"
  , "movemouse.exe"
  , "caffeine.exe"
  , "caffeine64.exe"
  , "jiggle.exe"
  , "keep-alive.exe"
  , "keepalive.exe"
  , "clickermann.exe"
  , "murgee auto clicker.exe"
  , "roblox auto clicker.exe"
  , "tinytask.exe"
  , "macro recorder.exe"
  , "macrorecorder.exe"
  , "mini mouse macro.exe"
  , "minimousemacro.exe"
  , "ghost mouse.exe"
  , "ghostmouse.exe"
  , "auto keyboard.exe" ]

/-! ### tracker.py — ActivityTracker data -/

/-- `collections.deque(maxlen := cap).append x`: append on the right,
evicting from the left once the capacity is reached. -/
def dequeAppend (cap : ℕ) (xs : List α) (x : α) : List α :=
  let ys := xs ++ [x]
  ys.drop (ys.length - cap)

/-- The mutable fields of `ActivityTracker.__init__` (tracker.py).
Python's leading-underscore naming is dropped (it is only a privacy
convention); field order follows the constructor. -/
structure ActivityTracker where
  last_activity : ℚ
  last_move_time : ℚ
  click_times : List ℚ
  click_positions : List (ℤ × ℤ)
  move_positions : List (ℤ × ℤ × ℚ)
  key_count : ℕ
  mouse_count : ℕ
  scroll_count : ℕ
  last_score : ℤ
  deriving Repr, DecidableEq

namespace ActivityTracker

/-- `ActivityTracker.__init__` at wall-clock time `now`
(`_last_activity = time.time()`, `_last_move_time = 0`, empty buffers,
zero counters, `_last_score = 100`). -/
def init (now : ℚ) : ActivityTracker :=
  { last_activity := now
  , last_move_time := 0
  , click_times := []
  , click_positions := []
  , move_positions := []
  , key_count := 0
  , mouse_count := 0
  , scroll_count := 0
  , last_score := 100 }

/-- `on_activity` (tracker.py): records the wall-clock time of any input. -/
def on_activity (now : ℚ) (d : ActivityTracker) : ActivityTracker :=
  { d with last_activity := now }

/-- `on_mouse_move(x, y)` (tracker.py): always refreshes
`_last_activity`; records the sample (counter + move buffer) only when
at least `MOVE_THROTTLE_SEC` has passed since the last recorded move.
`now` stands for the `time.time()` call at the top of the method. -/
def on_mouse_move (x y : ℤ) (now : ℚ) (d : ActivityTracker) : ActivityTracker :=
  let d := { d with last_activity := now }
  if now - d.last_move_time < MOVE_THROTTLE_SEC then
    d
  else
    { d with last_move_time := now
           , mouse_count := d.mouse_count + 1
           , move_positions := dequeAppend PATTERN_BUFFER_SIZE d.move_positions (x, y, now) }

/-- `on_mouse_click(x, y)` (tracker.py). -/
def on_mouse_click (x y : ℤ) (now : ℚ) (d : ActivityTracker) : ActivityTracker :=
  { d with last_activity := now
         , mouse_count := d.mouse_count + 1
         , click_times := dequeAppend PATTERN_BUFFER_SIZE d.click_times now
         , click_positions := dequeAppend PATTERN_BUFFER_SIZE d.click_positions (x, y) }

/-- `on_mouse_scroll` (tracker.py). -/
def on_mouse_scroll (now : ℚ) (d : ActivityTracker) : ActivityTracker :=
  { d with last_activity := now, scroll_count := d.scroll_count + 1 }

/-- `on_key_event` (tracker.py). -/
def on_key_event (now : ℚ) (d : ActivityTracker) : ActivityTracker :=
  { d with last_activity := now, key_count := d.key_count + 1 }

/-- `seconds_since_activity` (tracker.py): `time.time() - self._last_activity`
with the `time.time()` call made explicit as `now`. -/
def seconds_since_activity (now : ℚ) (d : ActivityTracker) : ℚ :=
  now - d.last_activity

/-! #### tracker.py — scoring helpers -/

/-- `_score_density(total_events)` (tracker.py). -/
def score_density (total_events : ℕ) : ℤ :=
  if total_events < 3 then 0
  else if total_events < 8 then 5
  else if total_events < 15 then 10
  else if total_events < 25 then 15
  else 20

/-- `_score_click_intervals(click_times)` (tracker.py).  `sqrt` is the
abstract `math.sqrt`; `intervals` is the list of successive differences
`click_times[i] - click_times[i-1]`, `cv = sqrt(variance) / mean`. -/
def score_click_intervals (sqrt : ℚ → ℚ) (click_times : List ℚ) : ℤ :=
  if click_times.length < 3 then 20
  else
    let intervals := List.zipWith (fun a b => b - a) click_times click_times.tail
    if intervals = [] then 20
    else
      let mean_interval := intervals.sum / (intervals.length : ℚ)
      if mean_interval ≤ 0 then 20
      else
        let variance := (intervals.map (fun i => (i - mean_interval) ^ 2)).sum / (intervals.length : ℚ)
        let cv := sqrt variance / mean_interval
        if cv < 0.05 then 0
        else if cv < 0.10 then 4
        else if cv < 0.15 then 8
        else if cv < 0.20 then 12
        else if cv < 0.30 then 16
        else 20

/-- The 20-pixel grid cell of a click position: `(x // 20, y // 20)`
(Python floor division). -/
def gridCell (p : ℤ × ℤ) : ℤ × ℤ :=
  (Int.fdiv p.1 20, Int.fdiv p.2 20)

/-- `_score_position_diversity(click_positions)` (tracker.py): the
Python `set` of grid cells is modelled by `List.dedup`;
`diversity = len(unique) / len(click_positions)`. -/
def score_position_diversity (click_positions : List (ℤ × ℤ)) : ℤ :=
  if click_positions.length < 3 then 20
  else
    let unique := (click_positions.map gridCell).dedup
    let diversity := (unique.length : ℚ) / (click_positions.length : ℚ)
    if diversity < 0.05 then 0
    else if diversity < 0.10 then 4
    else if diversity < 0.20 then 8
    else if diversity < 0.40 then 12
    else if diversity < 0.60 then 16
    else 20

/-- `_score_input_mix(key_count, scroll_count, total_events)` (tracker.py). -/
def score_input_mix (key_count scroll_count total_events : ℕ) : ℤ :=
  if total_events ≤ 3 then 20
  else
    let has_scroll := 0 < scroll_count
    if key_count = 0 ∧ ¬has_scroll then 0
    else if key_count = 0 then 6
    else if (key_count : ℚ) / (total_events : ℚ) < 0.05 then 10
    else if (key_count : ℚ) / (total_events : ℚ) < 0.10 then 15
    else 20

/-- `_score_movement_naturalness(move_positions)` (tracker.py):
per-step `dist = sqrt(dx² + dy²)`, `dt = max(t2 - t1, 0.001)`,
`speed = dist / dt`, then the coefficient of variation of the speeds. -/
def score_movement_naturalness (sqrt : ℚ → ℚ) (move_positions : List (ℤ × ℤ × ℚ)) : ℤ :=
  if move_positions.length < 5 then 20
  else
    let speeds := List.zipWith
      (fun p q =>
        let dist := sqrt ((((q.1 - p.1) ^ 2 + (q.2.1 - p.2.1) ^ 2 : ℤ) : ℚ))
        let dt := max (q.2.2 - p.2.2) 0.001
        dist / dt)
      move_positions move_positions.tail
    if speeds = [] then 20
    else
      let mean_speed := speeds.sum / (speeds.length : ℚ)
      if mean_speed ≤ 0 then 20
      else
        let speed_variance := (speeds.map (fun s => (s - mean_speed) ^ 2)).sum / (speeds.length : ℚ)
        let speed_cv := sqrt speed_variance / mean_speed
        if speed_cv < 0.05 then 0
        else if speed_cv < 0.10 then 4
        else if speed_cv < 0.20 then 10
        else if speed_cv < 0.30 then 15
        else 20

/-- The period's event total `key_count + mouse_count + scroll_count`
as snapshotted at the top of `calculate_activity_score`. -/
def totalEvents (d : ActivityTracker) : ℕ :=
  d.key_count + d.mouse_count + d.scroll_count

/-- `calculate_activity_score` (tracker.py): snapshots the buffers and
counters, zeroes the three counters, and either takes the
insufficient-data early return (`100`) or sums the five sub-scores.
Returns the score together with the updated tracker. -/
def calculate_activity_score (sqrt : ℚ → ℚ) (d : ActivityTracker) :
    ℤ × ActivityTracker :=
  let click_times := d.click_times
  let click_positions := d.click_positions
  let move_positions := d.move_positions
  let key_count := d.key_count
  let scroll_count := d.scroll_count
  let d' := { d with key_count := 0, mouse_count := 0, scroll_count := 0 }
  let total_events := totalEvents d
  if total_events = 0 ∧ click_times.length < 3 then
    (100, { d' with last_score := 100 })
  else
    let density_score := score_density total_events
    let interval_score := score_click_intervals sqrt click_times
    let position_score := score_position_diversity click_positions
    let mix_score := score_input_mix key_count scroll_count total_events
    let move_score := score_movement_naturalness sqrt move_positions
    let total_score := density_score + interval_score + position_score + mix_score + move_score
    (total_score, { d' with last_score := total_score })

end ActivityTracker

/-! ### state.py — AgentState -/

/-- The fields of the `AgentState` dataclass (state.py), in declaration
order.  Shift info is omitted (`Optional[str]` strings unused by any
property below would be dead weight); every flag consulted by the popup
state machine and the tick loop is present. -/
structure AgentState where
  last_input_ts : ℚ
  last_monotonic_ts : ℚ
  popup_visible : Bool
  popup_allowed : Bool
  awaiting_first_activity : Bool
  break_active : Bool
  break_start_time : ℚ
  last_heartbeat_time : ℚ
  last_heartbeat_state : String
  heartbeat_in_flight : Bool
  system_locked : Bool
  was_locked : Bool
  lock_popup_handled : Bool
  lock_start_time : ℚ
  online : Bool
  offline_since : ℚ
  offline_break_started : Bool
  consecutive_hb_failures : ℕ
  deriving Repr, DecidableEq

namespace AgentState

/-- `AgentState()` dataclass defaults, with the two `time.time()` /
`time.monotonic()` factory calls made explicit. -/
def initial (now mono : ℚ) : AgentState :=
  { last_input_ts := now
  , last_monotonic_ts := mono
  , popup_visible := false
  , popup_allowed := true
  , awaiting_first_activity := false
  , break_active := false
  , break_start_time := 0
  , last_heartbeat_time := 0
  , last_heartbeat_state := ""
  , heartbeat_in_flight := false
  , system_locked := false
  , was_locked := false
  , lock_popup_handled := false
  , lock_start_time := 0
  , online := true
  , offline_since := 0
  , offline_break_started := false
  , consecutive_hb_failures := 0 }

/-- `idle_seconds` (state.py): monotonic gap capped at 600 s. -/
def idle_seconds (now_monotonic : ℚ) (s : AgentState) : ℚ :=
  min (now_monotonic - s.last_monotonic_ts) 600

/-- `record_activity` (state.py). -/
def record_activity (now mono : ℚ) (s : AgentState) : AgentState :=
  { s with last_input_ts := now, last_monotonic_ts := mono }

/-- `can_show_popup` (state.py): the triple guard. -/
def can_show_popup (s : AgentState) : Bool :=
  !s.popup_visible && s.popup_allowed && !s.awaiting_first_activity

/-- `on_popup_shown` (state.py). -/
def on_popup_shown (now : ℚ) (s : AgentState) : AgentState :=
  { s with popup_visible := true
         , popup_allowed := false
         , break_active := true
         , break_start_time := now }

/-- `on_popup_submitted` (state.py): hides the popup, starts awaiting
real activity, and counts the submission itself as activity. -/
def on_popup_submitted (now mono : ℚ) (s : AgentState) : AgentState :=
  record_activity now mono { s with popup_visible := false, awaiting_first_activity := true }

/-- `on_user_active` (state.py). -/
def on_user_active (s : AgentState) : AgentState :=
  { s with awaiting_first_activity := false
         , popup_allowed := true
         , was_locked := false
         , lock_popup_handled := false
         , break_active := false }

/-- `mark_offline` (state.py). -/
def mark_offline (now : ℚ) (s : AgentState) : AgentState :=
  if s.online = false then s
  else { s with online := false, offline_since := now, offline_break_started := false }

/-- `mark_online` (state.py). -/
def mark_online (s : AgentState) : AgentState :=
  { s with online := true, consecutive_hb_failures := 0 }

end AgentState

/-- A transition of the popup episode (the two `AgentState` methods a
popup episode can run before activity resumes), with the wall/monotonic
clock readings of the call made explicit. -/
inductive PopupStep where
  | shown (now : ℚ)
  | submitted (now mono : ℚ)
  deriving Repr, DecidableEq

/-- Run one popup-episode transition. -/
def applyPopupStep (s : AgentState) : PopupStep → AgentState
  | .shown now => AgentState.on_popup_shown now s
  | .submitted now mono => AgentState.on_popup_submitted now mono s

/-- Run a sequence of popup-episode transitions, oldest first. -/
def applyPopupSteps (s : AgentState) (steps : List PopupStep) : AgentState :=
  steps.foldl applyPopupStep s

/-! ### platform_win.py — auto-clicker process scan -/

/-- `detect_autoclicker_processes(known_names)` (platform_win.py):
`sorted(running & known_names)` — the set intersection of the running
process names with the deny-list, returned as a sorted list.  The
snapshot `running` (from `_get_running_process_names()`) is a parameter;
the set intersection is `dedup` of the membership filter, and Python's
`sorted` is `insertionSort` by string order. -/
def detect_autoclicker_processes (running known_names : List String) : List String :=
  ((running.filter (fun p => p ∈ known_names)).dedup).insertionSort (· ≤ ·)

/-! ### app.py — the heartbeat slice of `AgentApp._do_tick` -/

/-- `current` state computed by `_do_tick` (app.py):
`"IDLE"` when the system is locked or the capped idle time has reached
`IDLE_THRESHOLD_SEC`, else `"ACTIVE"`. -/
def tick_current_state (system_locked : Bool) (idle_secs : ℚ) : String :=
  if system_locked || idle_secs ≥ IDLE_THRESHOLD_SEC then "IDLE" else "ACTIVE"

/-- The guard under which `_do_tick` (app.py) dispatches a heartbeat:
`(state_changed or interval_elapsed) and not self.state.heartbeat_in_flight`. -/
def heartbeatFires (state_changed interval_elapsed heartbeat_in_flight : Bool) : Bool :=
  (state_changed || interval_elapsed) && !heartbeat_in_flight

/-- The arguments `_do_tick` (app.py) hands to `send_heartbeat`:
state string, optional activity score, and the auto-clicker flag. -/
structure HeartbeatSend where
  state : String
  activityScore : Option ℤ
  autoClickerDetected : Bool
  deriving Repr, DecidableEq

/-- The heartbeat payload computation of `_do_tick` (app.py, lines
240–258): `cheat_flag = bool(self._autoclicker_detected)`; only in the
`ACTIVE` branch is the score computed, and there a detected auto-clicker
forces `("SUSPICIOUS", 0)` while a score below 30 forces `"SUSPICIOUS"`
with the computed score.  Returns the send arguments and the tracker as
updated by the scoring call. -/
def tick_heartbeat_payload (sqrt : ℚ → ℚ) (current : String)
    (autoclicker_detected : List String) (tracker : ActivityTracker) :
    HeartbeatSend × ActivityTracker :=
  let cheat_flag := !autoclicker_detected.isEmpty
  if current = "ACTIVE" then
    let r := ActivityTracker.calculate_activity_score sqrt tracker
    let score := r.1
    if cheat_flag then (⟨"SUSPICIOUS", some 0, cheat_flag⟩, r.2)
    else if score < 30 then (⟨"SUSPICIOUS", some score, cheat_flag⟩, r.2)
    else (⟨current, some score, cheat_flag⟩, r.2)
  else
    (⟨current, none, cheat_flag⟩, tracker)

/-! ### network.py / api.py — offline request buffer -/

/-- Python `str.strip()` (no argument): remove leading and trailing
whitespace.  (`String.trim` exists but does not reduce in the kernel, so
the same operation is spelled out on the character list.) -/
def pyStrip (s : String) : String :=
  ⟨((s.data.dropWhile (fun c => c.isWhitespace)).reverse.dropWhile
      (fun c => c.isWhitespace)).reverse⟩

/-- Python `str.upper()` on the ASCII method names used here. -/
def pyUpper (s : String) : String :=
  ⟨s.data.map Char.toUpper⟩

/-- A JSON object payload, modelled as its key/value pairs (every
payload built by api.py is a flat string dictionary). -/
abbrev Payload := List (String × String)

/-- One parsed line of the JSON-lines offline buffer file:
`{"method": .., "url": .., "payload": .., "ts": ..}` (network.py). -/
structure BufEntry where
  method : String
  url : String
  payload : Payload
  ts : ℚ
  deriving Repr, DecidableEq

/-- One raw line of the offline buffer file: either it parses as an
entry, or `json.loads` raises on it (a corrupt line, kept as its text). -/
inductive BufLine where
  | ok (e : BufEntry)
  | corrupt (s : String)
  deriving Repr, DecidableEq

/-- `buffer_request(method, url, payload)` (network.py): append the
failed call to the buffer unless the immediately preceding (last)
buffered line is an entry with the same method, URL and payload.  A
corrupt or absent last line means the dedup check falls through
(`except Exception: pass`) and the entry is appended. -/
def buffer_request (method url : String) (payload : Payload) (ts : ℚ)
    (buf : List BufLine) : List BufLine :=
  let entry := BufLine.ok ⟨method, url, payload, ts⟩
  match buf.getLast? with
  | some (BufLine.ok last) =>
      if last.method = method ∧ last.url = url ∧ last.payload = payload then buf
      else buf ++ [entry]
  | _ => buf ++ [entry]

/-- One iteration of the `flush_buffer` replay loop (network.py).
`replay e = some code` is the HTTP status of re-sending entry `e`;
`none` is a raised request exception.  The accumulator carries
`(flushed, still_failed)`.  A corrupt line makes `json.loads` raise, so
it lands in `still_failed`; a parsed entry whose upper-cased method is
neither `POST` nor `PATCH` is skipped (`continue`), i.e. silently
dropped; a replayed entry is counted as flushed on status 200/201 and
kept otherwise. -/
def flushStep (replay : BufEntry → Option ℕ) (acc : ℕ × List BufLine)
    (line : BufLine) : ℕ × List BufLine :=
  match line with
  | BufLine.corrupt _ => (acc.1, acc.2 ++ [line])
  | BufLine.ok e =>
      let m := pyUpper e.method
      if m = "POST" ∨ m = "PATCH" then
        match replay e with
        | some code =>
            if code = 200 ∨ code = 201 then (acc.1 + 1, acc.2)
            else (acc.1, acc.2 ++ [line])
        | none => (acc.1, acc.2 ++ [line])
      else (acc.1, acc.2)

/-- `flush_buffer()` (network.py): replay every buffered line in order;
return `(flushed, still_failed)` where `still_failed` is what the
buffer file holds afterwards (the file is deleted when it is empty).
An absent/empty buffer returns `(0, [])` without replaying anything. -/
def flush_buffer (replay : BufEntry → Option ℕ) (buf : List BufLine) :
    ℕ × List BufLine :=
  if buf = [] then (0, [])
  else buf.foldl (flushStep replay) (0, [])

/-- The URL `send_break_reason` (api.py) targets:
`f"{config['serverUrl']}/api/agent/break-log"`. -/
def break_log_url (serverUrl : String) : String :=
  serverUrl ++ "/api/agent/break-log"

/-- The PATCH payload `send_break_reason` (api.py) builds (after the
two reason strings have been stripped). -/
def break_reason_payload (deviceId deviceToken empCode reason custom_reason : String) :
    Payload :=
  [ ("deviceId", deviceId)
  , ("deviceToken", deviceToken)
  , ("empCode", empCode)
  , ("action", "update-reason")
  , ("reason", reason)
  , ("customReason", custom_reason) ]

/-- `send_break_reason(config, reason, custom_reason)` (api.py): strip
both strings and refuse (returning `False`, no buffering) if either is
empty; otherwise make up to three PATCH attempts — `attempts` lists the
success of each HTTP attempt in order, and the loop stops at the first
success — and on three failures append the request to the offline
buffer via `buffer_request` and still return `True` (the popup flow
stays non-blocking; the data is preserved for replay).  Returns the
result and the offline buffer after the call. -/
def send_break_reason (deviceId deviceToken empCode serverUrl : String)
    (reason custom_reason : String) (attempts : List Bool) (ts : ℚ)
    (buf : List BufLine) : Bool × List BufLine :=
  let reason := pyStrip reason
  let custom := pyStrip custom_reason
  if reason = "" ∨ custom = "" then (false, buf)
  else
    let url := break_log_url serverUrl
    let payload := break_reason_payload deviceId deviceToken empCode reason custom
    if attempts.any (fun b => b) then (true, buf)
    else (true, buffer_request "PATCH" url payload ts buf)

/-! ### app.py — processing a stream of move events through the tracker -/

/-- Feed a list of `(x, y, timestamp)` move events through
`ActivityTracker.on_mouse_move`, oldest first (the drain loop of
`AgentApp._drain_queue` restricted to move events). -/
def processMoves (moves : List (ℤ × ℤ × ℚ)) (d : ActivityTracker) : ActivityTracker :=
  moves.foldl (fun acc m => ActivityTracker.on_mouse_move m.1 m.2.1 m.2.2 acc) d

/-- The timestamps of a move-event list. -/
def timesOf (moves : List (ℤ × ℤ × ℚ)) : List ℚ :=
  moves.map (fun m => m.2.2)

/-- The recording decision of `on_mouse_move` restricted to what it
does to `(number of recorded moves, _last_move_time)`: a proof-side
abstraction of the throttle used to bound the buffer growth. -/
def throttleStep (acc : ℕ × ℚ) (t : ℚ) : ℕ × ℚ :=
  if t - acc.2 < MOVE_THROTTLE_SEC then acc else (acc.1 + 1, t)

/-! ### Concrete example inputs used by counterexamples and witnesses -/

/-- Thirty move events spanning exactly one second (timestamps, in
sixtieths of a second: `600, 606, 630, 631, …, 656, 660`, i.e.
`10 s, 10.1 s, 10.5 s, …, 11 s`), every consecutive gap below 500 ms. -/
def cexMoves : List (ℤ × ℤ × ℚ) :=
  [((0 : ℤ), (0 : ℤ), (600/60 : ℚ)), (0, 0, 606/60), (0, 0, 630/60),
   (0, 0, 631/60), (0, 0, 632/60), (0, 0, 633/60), (0, 0, 634/60),
   (0, 0, 635/60), (0, 0, 636/60), (0, 0, 637/60), (0, 0, 638/60),
   (0, 0, 639/60), (0, 0, 640/60), (0, 0, 641/60), (0, 0, 642/60),
   (0, 0, 643/60), (0, 0, 644/60), (0, 0, 645/60), (0, 0, 646/60),
   (0, 0, 647/60), (0, 0, 648/60), (0, 0, 649/60), (0, 0, 650/60),
   (0, 0, 651/60), (0, 0, 652/60), (0, 0, 653/60), (0, 0, 654/60),
   (0, 0, 655/60), (0, 0, 656/60), (0, 0, 660/60)]

/-- Ten clicks all at pixel (5, 7): one 20-pixel grid cell. -/
def tenSameCell : List (ℤ × ℤ) := List.replicate 10 (5, 7)

/-- Ten clicks in ten distinct 20-pixel grid cells. -/
def tenSpreadCells : List (ℤ × ℤ) :=
  [(0, 0), (20, 0), (40, 0), (60, 0), (80, 0),
   (100, 0), (120, 0), (140, 0), (160, 0), (180, 0)]

/-- A fresh tracker that has seen five key presses this period. -/
def busyTracker : ActivityTracker :=
  { ActivityTracker.init 0 with key_count := 5 }

/-- A fresh tracker whose last recorded move was at t = 0.5. -/
def recentMoveTracker : ActivityTracker :=
  { ActivityTracker.init 0 with last_move_time := 1/2 }

/-- An unparseable offline-buffer line. -/
def corruptLine : BufLine := BufLine.corrupt "not-json"

/-- A well-formed buffered heartbeat POST. -/
def goodEntry : BufEntry :=
  ⟨"POST", "https://srv/api/agent/heartbeat", [("empCode", "E1")], 0⟩

/-! ## Helper lemmas -/

lemma score_density_range (n : ℕ) :
    0 ≤ ActivityTracker.score_density n ∧ ActivityTracker.score_density n ≤ 20 := by
  simp only [ActivityTracker.score_density]
  split_ifs <;> norm_num

lemma score_click_intervals_range (sqrt : ℚ → ℚ) (ts : List ℚ) :
    0 ≤ ActivityTracker.score_click_intervals sqrt ts ∧
      ActivityTracker.score_click_intervals sqrt ts ≤ 20 := by
  simp only [ActivityTracker.score_click_intervals]
  split_ifs <;> norm_num

lemma score_position_diversity_range (ps : List (ℤ × ℤ)) :
    0 ≤ ActivityTracker.score_position_diversity ps ∧
      ActivityTracker.score_position_diversity ps ≤ 20 := by
  simp only [ActivityTracker.score_position_diversity]
  split_ifs <;> norm_num

lemma score_input_mix_range (k s t : ℕ) :
    0 ≤ ActivityTracker.score_input_mix k s t ∧
      ActivityTracker.score_input_mix k s t ≤ 20 := by
  simp only [ActivityTracker.score_input_mix]
  split_ifs <;> norm_num

lemma score_movement_naturalness_range (sqrt : ℚ → ℚ) (ms : List (ℤ × ℤ × ℚ)) :
    0 ≤ ActivityTracker.score_movement_naturalness sqrt ms ∧
      ActivityTracker.score_movement_naturalness sqrt ms ≤ 20 := by
  simp only [ActivityTracker.score_movement_naturalness]
  split_ifs <;> norm_num

lemma dedup_all_eq {α : Type} [DecidableEq α] :
    ∀ (l : List α) (c : α), l ≠ [] → (∀ a ∈ l, a = c) → l.dedup = [c] := by
  intro l
  induction l with
  | nil => intro c h _; exact absurd rfl h
  | cons a t ih =>
    intro c _ hall
    have ha : a = c := hall a (List.mem_cons_self a t)
    cases t with
    | nil => simp [ha]
    | cons b t2 =>
      have hb : b = c := hall b (by simp)
      have hmem : a ∈ b :: t2 := by
        rw [ha, ← hb]
        exact List.mem_cons_self b t2
      rw [List.dedup_cons_of_mem hmem]
      exact ih c (by simp) (fun x hx => hall x (List.mem_cons_of_mem a hx))

lemma dequeAppend_length_le (cap : ℕ) (xs : List α) (x : α) :
    (dequeAppend cap xs x).length ≤ xs.length + 1 := by
  simp only [dequeAppend, List.length_drop, List.length_append, List.length_singleton]
  omega

lemma foldl_throttleStep_shift :
    ∀ (ts : List ℚ) (n : ℕ) (last : ℚ),
      (ts.foldl throttleStep (n, last)).1 = n + (ts.foldl throttleStep (0, last)).1 ∧
      (ts.foldl throttleStep (n, last)).2 = (ts.foldl throttleStep (0, last)).2 := by
  intro ts
  induction ts with
  | nil => intro n last; exact ⟨by simp, rfl⟩
  | cons t ts ih =>
    intro n last
    rw [List.foldl_cons, List.foldl_cons]
    simp only [throttleStep]
    split_ifs with h
    · exact ih n last
    · refine ⟨?_, ?_⟩
      · rw [(ih (n + 1) t).1, (ih (0 + 1) t).1]
        omega
      · rw [(ih (n + 1) t).2, (ih (0 + 1) t).2]

lemma processMoves_foldl :
    ∀ (moves : List (ℤ × ℤ × ℚ)) (d : ActivityTracker),
      (processMoves moves d).move_positions.length ≤
        d.move_positions.length +
          ((timesOf moves).foldl throttleStep (0, d.last_move_time)).1 ∧
      (processMoves moves d).last_move_time =
        ((timesOf moves).foldl throttleStep (0, d.last_move_time)).2 := by
  intro moves
  induction moves with
  | nil => intro d; exact ⟨by simp [processMoves, timesOf], rfl⟩
  | cons m ms ih =>
    intro d
    have hstep : processMoves (m :: ms) d =
        processMoves ms (ActivityTracker.on_mouse_move m.1 m.2.1 m.2.2 d) := rfl
    have htimes : timesOf (m :: ms) = m.2.2 :: timesOf ms := rfl
    rw [hstep, htimes, List.foldl_cons]
    simp only [ActivityTracker.on_mouse_move, throttleStep]
    split_ifs with h
    · simpa using ih { d with last_activity := m.2.2 }
    · obtain ⟨ih1, ih2⟩ := ih
        { d with last_activity := m.2.2
               , last_move_time := m.2.2
               , mouse_count := d.mouse_count + 1
               , move_positions := dequeAppend PATTERN_BUFFER_SIZE d.move_positions
                   (m.1, m.2.1, m.2.2) }
      refine ⟨?_, ?_⟩
      · calc (processMoves ms _).move_positions.length
            ≤ (dequeAppend PATTERN_BUFFER_SIZE d.move_positions
                (m.1, m.2.1, m.2.2)).length +
              ((timesOf ms).foldl throttleStep (0, m.2.2)).1 := by simpa using ih1
          _ ≤ (d.move_positions.length + 1) +
              ((timesOf ms).foldl throttleStep (0, m.2.2)).1 := by
                have := dequeAppend_length_le PATTERN_BUFFER_SIZE d.move_positions
                  (m.1, m.2.1, m.2.2)
                omega
          _ = d.move_positions.length +
              ((timesOf ms).foldl throttleStep (0 + 1, m.2.2)).1 := by
                rw [(foldl_throttleStep_shift (timesOf ms) (0 + 1) m.2.2).1]
                omega
      · rw [show (processMoves ms _).last_move_time =
            ((timesOf ms).foldl throttleStep (0, m.2.2)).2 by simpa using ih2]
        rw [(foldl_throttleStep_shift (timesOf ms) (0 + 1) m.2.2).2]

lemma throttle_inv (lb ub : ℚ) :
    ∀ (ts : List ℚ), (∀ t ∈ ts, lb ≤ t ∧ t ≤ ub) →
      ∀ (k : ℕ) (last : ℚ),
        (k = 0 ∨ (1 ≤ k ∧ lb + ((k : ℚ) - 1) / 2 ≤ last ∧ last ≤ ub)) →
        ((ts.foldl throttleStep (k, last)).1 = 0 ∨
          (1 ≤ (ts.foldl throttleStep (k, last)).1 ∧
            lb + (((ts.foldl throttleStep (k, last)).1 : ℚ) - 1) / 2 ≤
              (ts.foldl throttleStep (k, last)).2 ∧
            (ts.foldl throttleStep (k, last)).2 ≤ ub)) := by
  intro ts
  induction ts with
  | nil => intro _ k last hk; exact hk
  | cons t ts ih =>
    intro h k last hk
    have ht := h t (List.mem_cons_self t ts)
    have hts : ∀ x ∈ ts, lb ≤ x ∧ x ≤ ub := fun x hx => h x (List.mem_cons_of_mem _ hx)
    rw [List.foldl_cons]
    simp only [throttleStep]
    split_ifs with hc
    · exact ih hts k last hk
    · apply ih hts (k + 1) t
      right
      have hc' : (1/2 : ℚ) ≤ t - last := by
        simp only [MOVE_THROTTLE_SEC, not_lt] at hc
        norm_num at hc
        linarith
      refine ⟨by omega, ?_, ht.2⟩
      rcases hk with hk0 | ⟨hk1, hlast, hub⟩
      · subst hk0
        push_cast
        norm_num
        exact ht.1
      · push_cast
        have hk1' : (1 : ℚ) ≤ (k : ℚ) := by exact_mod_cast hk1
        linarith

lemma throttleCount_le (ts : List ℚ) (last lb ub : ℚ) (hle : lb ≤ ub)
    (h : ∀ t ∈ ts, lb ≤ t ∧ t ≤ ub) :
    ((ts.foldl throttleStep (0, last)).1 : ℤ) ≤
      ⌊(ub - lb) / MOVE_THROTTLE_SEC⌋ + 1 := by
  have hfl : (0 : ℤ) ≤ ⌊(ub - lb) / MOVE_THROTTLE_SEC⌋ := by
    apply Int.floor_nonneg.mpr
    apply div_nonneg (by linarith)
    rw [MOVE_THROTTLE_SEC]
    norm_num
  rcases throttle_inv lb ub ts h 0 last (Or.inl rfl) with h0 | ⟨h1, h2, h3⟩
  · rw [h0]
    omega
  · have hdiv : ((ub - lb) / MOVE_THROTTLE_SEC : ℚ) = 2 * (ub - lb) := by
      rw [MOVE_THROTTLE_SEC]
      norm_num
      ring
    have hq : (((ts.foldl throttleStep (0, last)).1 : ℚ)) - 1 ≤
        (ub - lb) / MOVE_THROTTLE_SEC := by
      rw [hdiv]
      linarith
    have hfloor : ((ts.foldl throttleStep (0, last)).1 : ℤ) - 1 ≤
        ⌊(ub - lb) / MOVE_THROTTLE_SEC⌋ := by
      apply Int.le_floor.mpr
      push_cast
      linarith
    omega

lemma getLastD_mem_of_ne_nil :
    ∀ (l : List α) (d : α), l ≠ [] → l.getLastD d ∈ l := by
  intro l
  induction l with
  | nil => intro d h; exact absurd rfl h
  | cons a t ih =>
    intro d _
    cases t with
    | nil => exact List.mem_singleton_self a
    | cons b m => exact List.mem_cons_of_mem a (ih a (by simp))

lemma sorted_head_le (ts : List ℚ) (hs : ts.Pairwise (· ≤ ·)) :
    ∀ t ∈ ts, ts.headD 0 ≤ t := by
  cases ts with
  | nil => intro t ht; cases ht
  | cons a l =>
    intro t ht
    rcases List.mem_cons.mp ht with rfl | hl
    · exact le_refl _
    · exact (List.pairwise_cons.mp hs).1 t hl

lemma sorted_le_getLastD :
    ∀ (ts : List ℚ), ts.Pairwise (· ≤ ·) → ∀ t ∈ ts, t ≤ ts.getLastD 0 := by
  intro ts
  induction ts with
  | nil => intro _ t ht; cases ht
  | cons a l ih =>
    intro hs t ht
    cases l with
    | nil =>
      rcases List.mem_cons.mp ht with rfl | h
      · exact le_refl _
      · cases h
    | cons b m =>
      have hgl : (a :: b :: m).getLastD 0 = (b :: m).getLastD 0 := rfl
      rw [hgl]
      rcases List.mem_cons.mp ht with rfl | h
      · exact (List.pairwise_cons.mp hs).1 _
          (getLastD_mem_of_ne_nil (b :: m) 0 (by simp))
      · exact ih (List.pairwise_cons.mp hs).2 t h

lemma flush_all_ok :
    ∀ (lines : List BufLine), (∀ l ∈ lines, ∃ e, l = BufLine.ok e) →
      ∀ acc : ℕ × List BufLine,
        (lines.foldl (flushStep (fun _ => some 200)) acc).2 = acc.2 := by
  intro lines
  induction lines with
  | nil => intro _ acc; rfl
  | cons l t ih =>
    intro h acc
    obtain ⟨e, rfl⟩ := h l (List.mem_cons_self l t)
    rw [List.foldl_cons, ih (fun x hx => h x (List.mem_cons_of_mem _ hx))]
    simp only [flushStep]
    split_ifs with hm hc
    · rfl
    · simp at hc
    · rfl

lemma flushStep_fst_congr (replay : BufEntry → Option ℕ) (line : BufLine)
    (acc acc' : ℕ × List BufLine) (h : acc.1 = acc'.1) :
    (flushStep replay acc line).1 = (flushStep replay acc' line).1 := by
  cases line with
  | corrupt s => simpa using h
  | ok e =>
    simp only [flushStep]
    split_ifs with hm
    · cases hre : replay e with
      | none => simpa using h
      | some code =>
        dsimp only
        split_ifs <;> simpa using h
    · simpa using h

lemma foldl_flush_fst_congr (replay : BufEntry → Option ℕ) :
    ∀ (lines : List BufLine) (acc acc' : ℕ × List BufLine), acc.1 = acc'.1 →
      (lines.foldl (flushStep replay) acc).1 = (lines.foldl (flushStep replay) acc').1 := by
  intro lines
  induction lines with
  | nil => intro acc acc' h; exact h
  | cons l t ih =>
    intro acc acc' h
    rw [List.foldl_cons, List.foldl_cons]
    exact ih _ _ (flushStep_fst_congr replay l acc acc' h)

lemma mem_flushStep (replay : BufEntry → Option ℕ) (line : BufLine)
    (acc : ℕ × List BufLine) (x : BufLine) (hx : x ∈ acc.2) :
    x ∈ (flushStep replay acc line).2 := by
  cases line with
  | corrupt s => exact List.mem_append_left _ hx
  | ok e =>
    simp only [flushStep]
    split_ifs with hm
    · cases hre : replay e with
      | none => exact List.mem_append_left _ hx
      | some code =>
        dsimp only
        split_ifs <;> first | exact hx | exact List.mem_append_left _ hx
    · exact hx

lemma foldl_flush_mem (replay : BufEntry → Option ℕ) :
    ∀ (lines : List BufLine) (acc : ℕ × List BufLine) (x : BufLine), x ∈ acc.2 →
      x ∈ (lines.foldl (flushStep replay) acc).2 := by
  intro lines
  induction lines with
  | nil => intro acc x hx; exact hx
  | cons l t ih =>
    intro acc x hx
    rw [List.foldl_cons]
    exact ih _ x (mem_flushStep replay l acc x hx)

lemma can_show_popup_false_after_step (s : AgentState) (st : PopupStep) :
    (applyPopupStep s st).can_show_popup = false := by
  cases st <;>
    simp [applyPopupStep, AgentState.on_popup_shown, AgentState.on_popup_submitted,
      AgentState.record_activity, AgentState.can_show_popup]

/-! ## Claim theorems -/

/-- **C2.** `can_show_popup` is literally the triple guard
`!popup_visible && popup_allowed && !awaiting_first_activity`; it is
false immediately after `on_popup_shown`, false after
`on_popup_submitted`, false after *any* nonempty sequence of
shown/submitted transitions (so no second popup can be authorised
during an unresolved popup episode), and `on_user_active` after a
submission restores it to true. -/
theorem popup_guard_spec :
    (∀ s : AgentState, s.can_show_popup =
        (!s.popup_visible && s.popup_allowed && !s.awaiting_first_activity)) ∧
    (∀ (s : AgentState) (now : ℚ),
        (AgentState.on_popup_shown now s).can_show_popup = false) ∧
    (∀ (s : AgentState) (now mono : ℚ),
        (AgentState.on_popup_submitted now mono s).can_show_popup = false) ∧
    (∀ (s : AgentState) (st : PopupStep) (steps : List PopupStep),
        (applyPopupSteps s (st :: steps)).can_show_popup = false) ∧
    (∀ (s : AgentState) (now mono : ℚ),
        (AgentState.on_user_active
          (AgentState.on_popup_submitted now mono s)).can_show_popup = true) := by
  refine ⟨fun s => rfl, fun s now => ?_, fun s now mono => ?_, fun s st steps => ?_,
    fun s now mono => ?_⟩
  · exact can_show_popup_false_after_step s (.shown now)
  · exact can_show_popup_false_after_step s (.submitted now mono)
  · induction steps generalizing s st with
    | nil => exact can_show_popup_false_after_step s st
    | cons st2 rest ih => exact ih (applyPopupStep s st) st2
  · simp [AgentState.on_user_active, AgentState.on_popup_submitted,
      AgentState.record_activity, AgentState.can_show_popup]

/-- **C7.** When the three period counters sum to 0 and fewer than 3
click timestamps are buffered, `calculate_activity_score` takes the
insufficient-data early return and yields exactly 100. -/
theorem insufficient_data_scores_100 (sqrt : ℚ → ℚ) (d : ActivityTracker)
    (h1 : d.key_count + d.mouse_count + d.scroll_count = 0)
    (h2 : d.click_times.length < 3) :
    (ActivityTracker.calculate_activity_score sqrt d).1 = 100 := by
  simp [ActivityTracker.calculate_activity_score, ActivityTracker.totalEvents, h1, h2]

/-- Witness for `insufficient_data_scores_100`: a fresh tracker. -/
theorem insufficient_data_scores_100_witness :
    (ActivityTracker.calculate_activity_score (fun q => q) (ActivityTracker.init 0)).1 = 100 :=
  insufficient_data_scores_100 (fun q => q) (ActivityTracker.init 0) (by decide) (by decide)

/-- **C8.** Every call to `calculate_activity_score` — on any tracker
state, including the insufficient-data early-return path — zeroes the
three scalar counters and leaves the click-time, click-position and
move-position buffers untouched. -/
theorem score_resets_counters_keeps_buffers (sqrt : ℚ → ℚ) (d : ActivityTracker) :
    (ActivityTracker.calculate_activity_score sqrt d).2.key_count = 0 ∧
    (ActivityTracker.calculate_activity_score sqrt d).2.mouse_count = 0 ∧
    (ActivityTracker.calculate_activity_score sqrt d).2.scroll_count = 0 ∧
    (ActivityTracker.calculate_activity_score sqrt d).2.click_times = d.click_times ∧
    (ActivityTracker.calculate_activity_score sqrt d).2.click_positions = d.click_positions ∧
    (ActivityTracker.calculate_activity_score sqrt d).2.move_positions = d.move_positions := by
  simp only [ActivityTracker.calculate_activity_score]
  split_ifs <;> simp

/-- **C10.** `on_mouse_move` always refreshes `_last_activity` (so
`seconds_since_activity` read at the event's time is 0), even when the
500 ms throttle discards the sample; the throttle suppresses only the
mouse counter and the move-position buffer. -/
theorem mouse_move_refreshes_activity :
    (∀ (d : ActivityTracker) (x y : ℤ) (now : ℚ),
        (ActivityTracker.on_mouse_move x y now d).last_activity = now ∧
        ActivityTracker.seconds_since_activity now
          (ActivityTracker.on_mouse_move x y now d) = 0) ∧
    (∀ (d : ActivityTracker) (x y : ℤ) (now : ℚ),
        now - d.last_move_time < MOVE_THROTTLE_SEC →
        (ActivityTracker.on_mouse_move x y now d).mouse_count = d.mouse_count ∧
        (ActivityTracker.on_mouse_move x y now d).move_positions = d.move_positions) := by
  constructor
  · intro d x y now
    simp only [ActivityTracker.on_mouse_move, ActivityTracker.seconds_since_activity]
    split_ifs <;> simp
  · intro d x y now h
    simp [ActivityTracker.on_mouse_move, h]

/-- Witness for `mouse_move_refreshes_activity`: a move arriving 10 ms
after the last recorded one refreshes activity but records nothing. -/
theorem mouse_move_refreshes_activity_witness :
    (ActivityTracker.on_mouse_move 1 2 (51/100) recentMoveTracker).last_activity = 51/100 ∧
    (ActivityTracker.on_mouse_move 1 2 (51/100) recentMoveTracker).mouse_count =
      recentMoveTracker.mouse_count ∧
    (ActivityTracker.on_mouse_move 1 2 (51/100) recentMoveTracker).move_positions =
      recentMoveTracker.move_positions :=
  ⟨(mouse_move_refreshes_activity.1 recentMoveTracker 1 2 (51/100)).1,
   (mouse_move_refreshes_activity.2 recentMoveTracker 1 2 (51/100)
      (by norm_num [recentMoveTracker, ActivityTracker.init, MOVE_THROTTLE_SEC])).1,
   (mouse_move_refreshes_activity.2 recentMoveTracker 1 2 (51/100)
      (by norm_num [recentMoveTracker, ActivityTracker.init, MOVE_THROTTLE_SEC])).2⟩

/-- **C1 (amended).** For every tracker state, `calculate_activity_score`
returns an integer in [0, 100]; each of the five sub-score helpers
returns a value in {0, …, 20}; and whenever the insufficient-data early
return does not fire, the final score is exactly the sum of the five
sub-scores.  (Totality of the Lean functions models the source's
exception-freedom.) -/
theorem activity_score_range_and_sum (sqrt : ℚ → ℚ) (d : ActivityTracker) :
    (0 ≤ (ActivityTracker.calculate_activity_score sqrt d).1 ∧
      (ActivityTracker.calculate_activity_score sqrt d).1 ≤ 100) ∧
    (0 ≤ ActivityTracker.score_density (ActivityTracker.totalEvents d) ∧
      ActivityTracker.score_density (ActivityTracker.totalEvents d) ≤ 20) ∧
    (0 ≤ ActivityTracker.score_click_intervals sqrt d.click_times ∧
      ActivityTracker.score_click_intervals sqrt d.click_times ≤ 20) ∧
    (0 ≤ ActivityTracker.score_position_diversity d.click_positions ∧
      ActivityTracker.score_position_diversity d.click_positions ≤ 20) ∧
    (0 ≤ ActivityTracker.score_input_mix d.key_count d.scroll_count
        (ActivityTracker.totalEvents d) ∧
      ActivityTracker.score_input_mix d.key_count d.scroll_count
        (ActivityTracker.totalEvents d) ≤ 20) ∧
    (0 ≤ ActivityTracker.score_movement_naturalness sqrt d.move_positions ∧
      ActivityTracker.score_movement_naturalness sqrt d.move_positions ≤ 20) ∧
    (¬(ActivityTracker.totalEvents d = 0 ∧ d.click_times.length < 3) →
      (ActivityTracker.calculate_activity_score sqrt d).1 =
        ActivityTracker.score_density (ActivityTracker.totalEvents d) +
        ActivityTracker.score_click_intervals sqrt d.click_times +
        ActivityTracker.score_position_diversity d.click_positions +
        ActivityTracker.score_input_mix d.key_count d.scroll_count
          (ActivityTracker.totalEvents d) +
        ActivityTracker.score_movement_naturalness sqrt d.move_positions) := by
  have h0 := score_density_range (ActivityTracker.totalEvents d)
  have h1 := score_click_intervals_range sqrt d.click_times
  have h2 := score_position_diversity_range d.click_positions
  have h3 := score_input_mix_range d.key_count d.scroll_count (ActivityTracker.totalEvents d)
  have h4 := score_movement_naturalness_range sqrt d.move_positions
  refine ⟨?_, h0, h1, h2, h3, h4, ?_⟩
  · simp only [ActivityTracker.calculate_activity_score]
    split_ifs with hg
    · dsimp only
      norm_num
    · dsimp only
      constructor
      · linarith [h0.1, h1.1, h2.1, h3.1, h4.1]
      · linarith [h0.2, h1.2, h2.2, h3.2, h4.2]
  · intro hg
    simp only [ActivityTracker.calculate_activity_score]
    rw [if_neg hg]

/-- Counterexample to the claim that the final score is always the sum
of the five sub-scores: on a fresh tracker (zero counters, empty
buffers) the early return yields 100, while the sub-scores sum to 80. -/
theorem activity_score_sum_refuted :
    (ActivityTracker.calculate_activity_score (fun q => q) (ActivityTracker.init 0)).1 = 100 ∧
    ActivityTracker.score_density (ActivityTracker.totalEvents (ActivityTracker.init 0)) +
      ActivityTracker.score_click_intervals (fun q => q) (ActivityTracker.init 0).click_times +
      ActivityTracker.score_position_diversity (ActivityTracker.init 0).click_positions +
      ActivityTracker.score_input_mix (ActivityTracker.init 0).key_count
        (ActivityTracker.init 0).scroll_count
        (ActivityTracker.totalEvents (ActivityTracker.init 0)) +
      ActivityTracker.score_movement_naturalness (fun q => q)
        (ActivityTracker.init 0).move_positions = 80 ∧
    (100 : ℤ) ≠ 80 := by
  refine ⟨by decide, by decide, by decide⟩

/-- Witness for `activity_score_range_and_sum`: on a tracker with five
key presses this period the guard fails and the score is the sub-score
sum. -/
theorem activity_score_range_and_sum_witness :
    (ActivityTracker.calculate_activity_score (fun q => q) busyTracker).1 =
      ActivityTracker.score_density (ActivityTracker.totalEvents busyTracker) +
      ActivityTracker.score_click_intervals (fun q => q) busyTracker.click_times +
      ActivityTracker.score_position_diversity busyTracker.click_positions +
      ActivityTracker.score_input_mix busyTracker.key_count busyTracker.scroll_count
        (ActivityTracker.totalEvents busyTracker) +
      ActivityTracker.score_movement_naturalness (fun q => q) busyTracker.move_positions :=
  (activity_score_range_and_sum (fun q => q) busyTracker).2.2.2.2.2.2 (by decide)

/-- **C4 (amended).** For 10 buffered click positions all inside one
20-pixel grid cell the position-diversity sub-score is 8 (diversity
1/10 falls in the `< 0.20` band, not the `< 0.05` one); for 10 click
positions covering at least 6 distinct grid cells it is 20. -/
theorem position_diversity_bands :
    (∀ ps : List (ℤ × ℤ), ps.length = 10 →
        (∀ p ∈ ps, ∀ q ∈ ps, ActivityTracker.gridCell p = ActivityTracker.gridCell q) →
        ActivityTracker.score_position_diversity ps = 8) ∧
    (∀ ps : List (ℤ × ℤ), ps.length = 10 →
        6 ≤ ((ps.map ActivityTracker.gridCell).dedup).length →
        ActivityTracker.score_position_diversity ps = 20) := by
  constructor
  · intro ps hlen hsame
    obtain ⟨p0, hp0⟩ := List.exists_mem_of_ne_nil ps
      (by intro h; rw [h] at hlen; simp at hlen)
    have hded : (ps.map ActivityTracker.gridCell).dedup = [ActivityTracker.gridCell p0] := by
      apply dedup_all_eq
      · simp only [ne_eq, List.map_eq_nil_iff]
        intro h
        rw [h] at hlen
        simp at hlen
      · intro a ha
        obtain ⟨q, hq, rfl⟩ := List.mem_map.mp ha
        exact hsame q hq p0 hp0
    simp only [ActivityTracker.score_position_diversity, hlen, hded]
    norm_num
  · intro ps hlen h6
    have hcast : (6 : ℚ) ≤ (((ps.map ActivityTracker.gridCell).dedup).length : ℚ) := by
      exact_mod_cast h6
    simp only [ActivityTracker.score_position_diversity, hlen]
    have hdiv : (0.60 : ℚ) ≤ (((ps.map ActivityTracker.gridCell).dedup).length : ℚ) / 10 := by
      rw [le_div_iff₀ (by norm_num)]
      norm_num
      linarith
    split_ifs with b1 b2 b3 b4 b5 <;> first | rfl | linarith

/-- Counterexample to the claim that 10 same-cell clicks score 0: they
score 8 (the claim's own premises hold, the conclusion does not). -/
theorem position_diversity_same_cell_refuted :
    tenSameCell.length = 10 ∧
    (∀ p ∈ tenSameCell, ∀ q ∈ tenSameCell,
        ActivityTracker.gridCell p = ActivityTracker.gridCell q) ∧
    ActivityTracker.score_position_diversity tenSameCell = 8 ∧
    ActivityTracker.score_position_diversity tenSameCell ≠ 0 := by
  have hded : (tenSameCell.map ActivityTracker.gridCell).dedup = [(0, 0)] := by decide
  have h8 : ActivityTracker.score_position_diversity tenSameCell = 8 := by
    have hlen : tenSameCell.length = 10 := by decide
    simp only [ActivityTracker.score_position_diversity, hlen, hded]
    norm_num
  exact ⟨by decide, by decide, h8, by rw [h8]; decide⟩

/-- Witness for `position_diversity_bands`: ten same-cell clicks score
8; ten clicks over ten distinct cells score 20. -/
theorem position_diversity_bands_witness :
    ActivityTracker.score_position_diversity tenSameCell = 8 ∧
    ActivityTracker.score_position_diversity tenSpreadCells = 20 :=
  ⟨position_diversity_bands.1 tenSameCell (by decide) (by decide),
   position_diversity_bands.2 tenSpreadCells (by decide) (by decide)⟩

/-- **C3 (amended).** Whenever `_do_tick` sends a heartbeat while the
computed current state is `ACTIVE` and a known auto-clicker process is
among the running processes, the heartbeat's state is forced to
`SUSPICIOUS` and its score to 0, regardless of the statistically
computed score (and the auto-clicker flag is set). -/
theorem heartbeat_autoclicker_override (sqrt : ℚ → ℚ) (d : ActivityTracker)
    (running : List String)
    (h : ∃ p, p ∈ running ∧ p ∈ AUTOCLICKER_PROCESSES) :
    (tick_heartbeat_payload sqrt "ACTIVE"
        (detect_autoclicker_processes running AUTOCLICKER_PROCESSES) d).1 =
      ⟨"SUSPICIOUS", some 0, true⟩ := by
  obtain ⟨p, hrun, hknown⟩ := h
  have hp : p ∈ detect_autoclicker_processes running AUTOCLICKER_PROCESSES := by
    unfold detect_autoclicker_processes
    rw [(List.perm_insertionSort _ _).mem_iff, List.mem_dedup, List.mem_filter]
    exact ⟨hrun, by simpa using hknown⟩
  cases hl : detect_autoclicker_processes running AUTOCLICKER_PROCESSES with
  | nil => rw [hl] at hp; cases hp
  | cons a t => simp [tick_heartbeat_payload, hl]

/-- Counterexample to the unconditional claim: an `IDLE`-state tick
(e.g. system idle for 300 s) still sends a heartbeat when the state
changed, and even with `autoclicker.exe` detected that heartbeat
carries state `IDLE` and no score — not `SUSPICIOUS`/0. -/
theorem heartbeat_autoclicker_refuted :
    tick_current_state false 300 = "IDLE" ∧
    heartbeatFires true false false = true ∧
    "autoclicker.exe" ∈ detect_autoclicker_processes ["autoclicker.exe"] AUTOCLICKER_PROCESSES ∧
    ¬((tick_heartbeat_payload (fun q => q) "IDLE"
          (detect_autoclicker_processes ["autoclicker.exe"] AUTOCLICKER_PROCESSES)
          (ActivityTracker.init 0)).1.state = "SUSPICIOUS" ∧
      (tick_heartbeat_payload (fun q => q) "IDLE"
          (detect_autoclicker_processes ["autoclicker.exe"] AUTOCLICKER_PROCESSES)
          (ActivityTracker.init 0)).1.activityScore = some 0) := by
  refine ⟨?_, rfl, ?_, ?_⟩
  · norm_num [tick_current_state, IDLE_THRESHOLD_SEC]
  · unfold detect_autoclicker_processes
    rw [(List.perm_insertionSort _ _).mem_iff]
    decide
  · rintro ⟨hs, -⟩
    have hidle : (tick_heartbeat_payload (fun q => q) "IDLE"
        (detect_autoclicker_processes ["autoclicker.exe"] AUTOCLICKER_PROCESSES)
        (ActivityTracker.init 0)).1.state = "IDLE" := by
      simp [tick_heartbeat_payload]
    rw [hidle] at hs
    exact absurd hs (by decide)

/-- Witness for `heartbeat_autoclicker_override`: `autoclicker.exe`
running while ACTIVE forces the `(SUSPICIOUS, 0)` heartbeat. -/
theorem heartbeat_autoclicker_override_witness :
    (tick_heartbeat_payload (fun q => q) "ACTIVE"
        (detect_autoclicker_processes ["autoclicker.exe"] AUTOCLICKER_PROCESSES)
        (ActivityTracker.init 0)).1 = ⟨"SUSPICIOUS", some 0, true⟩ :=
  heartbeat_autoclicker_override (fun q => q) (ActivityTracker.init 0) ["autoclicker.exe"]
    ⟨"autoclicker.exe", by decide, by decide⟩

/-- **C6.** A single `send_break_reason` call whose three HTTP attempts
all fail appends exactly one entry to the offline buffer (provided the
immediately preceding buffered line is not already the same
method+URL+payload — the dedup the claim describes), and a subsequent
`flush_buffer` in which every replayed request succeeds (status 200)
leaves the buffer empty (provided the pre-existing buffer has no
corrupt lines, which would never be replayed). -/
theorem annotate_failure_buffers_once
    (deviceId deviceToken empCode serverUrl reason custom_reason : String)
    (ts : ℚ) (buf : List BufLine)
    (hr : pyStrip reason ≠ "") (hcu : pyStrip custom_reason ≠ "")
    (hnodup : ∀ e : BufEntry, buf.getLast? = some (BufLine.ok e) →
        ¬(e.method = "PATCH" ∧ e.url = break_log_url serverUrl ∧
          e.payload = break_reason_payload deviceId deviceToken empCode
            (pyStrip reason) (pyStrip custom_reason)))
    (hwf : ∀ l ∈ buf, ∃ e, l = BufLine.ok e) :
    (send_break_reason deviceId deviceToken empCode serverUrl reason custom_reason
        [false, false, false] ts buf).2.length = buf.length + 1 ∧
    (flush_buffer (fun _ => some 200)
        (send_break_reason deviceId deviceToken empCode serverUrl reason custom_reason
          [false, false, false] ts buf).2).2 = [] := by
  have hsend : (send_break_reason deviceId deviceToken empCode serverUrl reason
      custom_reason [false, false, false] ts buf).2 =
      buffer_request "PATCH" (break_log_url serverUrl)
        (break_reason_payload deviceId deviceToken empCode
          (pyStrip reason) (pyStrip custom_reason)) ts buf := by
    simp only [send_break_reason]
    rw [if_neg (by push_neg; exact ⟨hr, hcu⟩)]
    simp
  have hbuf : buffer_request "PATCH" (break_log_url serverUrl)
      (break_reason_payload deviceId deviceToken empCode
        (pyStrip reason) (pyStrip custom_reason)) ts buf =
      buf ++ [BufLine.ok ⟨"PATCH", break_log_url serverUrl,
        break_reason_payload deviceId deviceToken empCode
          (pyStrip reason) (pyStrip custom_reason), ts⟩] := by
    simp only [buffer_request]
    cases hl : buf.getLast? with
    | none => rfl
    | some line =>
      cases line with
      | ok e =>
        dsimp only
        rw [if_neg (hnodup e hl)]
      | corrupt s => rfl
  rw [hsend, hbuf]
  refine ⟨by simp, ?_⟩
  have hwf' : ∀ l ∈ buf ++ [BufLine.ok ⟨"PATCH", break_log_url serverUrl,
      break_reason_payload deviceId deviceToken empCode
        (pyStrip reason) (pyStrip custom_reason), ts⟩], ∃ e, l = BufLine.ok e := by
    intro l hl
    rcases List.mem_append.mp hl with h | h
    · exact hwf l h
    · simp only [List.mem_singleton] at h
      exact ⟨_, h⟩
  simp only [flush_buffer]
  rw [if_neg (by simp)]
  exact flush_all_ok _ hwf' (0, [])

/-- Witness for `annotate_failure_buffers_once`: a failing annotate
call against an empty buffer buffers one entry; replaying it with
status 200 empties the buffer. -/
theorem annotate_failure_buffers_once_witness :
    (send_break_reason "d1" "t1" "E1" "https://srv" "Namaz" "prayer"
        [false, false, false] 0 []).2.length = ([] : List BufLine).length + 1 ∧
    (flush_buffer (fun _ => some 200)
        (send_break_reason "d1" "t1" "E1" "https://srv" "Namaz" "prayer"
          [false, false, false] 0 []).2).2 = [] :=
  annotate_failure_buffers_once "d1" "t1" "E1" "https://srv" "Namaz" "prayer" 0 []
    (by decide) (by decide)
    (fun e h => by simp at h)
    (fun l hl => by simp at hl)

/-- **C9 (amended).** A corrupt buffer line does not prevent the
remaining entries from being replayed — the flushed count is exactly
what it would be without the corrupt line — but the corrupt line is
*retained* in the buffer afterwards (it lands in `still_failed`, like a
failed request), not dropped. -/
theorem corrupt_entry_kept_not_fatal (pre post : List BufLine) (s : String)
    (replay : BufEntry → Option ℕ) :
    (flush_buffer replay (pre ++ BufLine.corrupt s :: post)).1 =
      (flush_buffer replay (pre ++ post)).1 ∧
    BufLine.corrupt s ∈ (flush_buffer replay (pre ++ BufLine.corrupt s :: post)).2 := by
  have hne : pre ++ BufLine.corrupt s :: post ≠ [] := by simp
  constructor
  · simp only [flush_buffer]
    rw [if_neg hne]
    by_cases hpp : pre ++ post = []
    · obtain ⟨hpre, hpost⟩ := List.append_eq_nil.mp hpp
      rw [if_pos hpp, hpre, hpost]
      rfl
    · rw [if_neg hpp]
      rw [List.foldl_append, List.foldl_append, List.foldl_cons]
      exact foldl_flush_fst_congr replay post _ _ rfl
  · simp only [flush_buffer]
    rw [if_neg hne]
    rw [List.foldl_append, List.foldl_cons]
    exact foldl_flush_mem replay post _ _
      (List.mem_append_right _ (List.mem_singleton_self _))

/-- **C5 (amended).** A move arriving within 500 ms of the last
recorded move is discarded before being counted — the mouse counter and
the move buffer are unchanged by it — and for any ≥ 30 moves with
nondecreasing timestamps spaced < 500 ms apart fed to a tracker with an
empty move buffer, the move buffer afterwards holds at most
`⌊window / 500 ms⌋ + 1` entries, where `window` is the time span of the
sequence.  (This equals `⌈window/500ms⌉` except when the window is an
exact multiple of 500 ms, where one further entry fits.) -/
theorem move_throttle_spec :
    (∀ (d : ActivityTracker) (x y : ℤ) (now : ℚ),
        now - d.last_move_time < MOVE_THROTTLE_SEC →
        (ActivityTracker.on_mouse_move x y now d).mouse_count = d.mouse_count ∧
        (ActivityTracker.on_mouse_move x y now d).move_positions = d.move_positions) ∧
    (∀ (d : ActivityTracker) (moves : List (ℤ × ℤ × ℚ)),
        d.move_positions = [] →
        30 ≤ moves.length →
        List.Chain' (fun a b => 0 ≤ b - a ∧ b - a < MOVE_THROTTLE_SEC) (timesOf moves) →
        ((processMoves moves d).move_positions.length : ℤ) ≤
          ⌊((timesOf moves).getLastD 0 - (timesOf moves).headD 0) / MOVE_THROTTLE_SEC⌋
            + 1) := by
  constructor
  · intro d x y now h
    simp [ActivityTracker.on_mouse_move, h]
  · intro d moves hemp hlen hchain
    have hpair : (timesOf moves).Pairwise (· ≤ ·) := by
      have hch : List.Chain' (· ≤ ·) (timesOf moves) :=
        hchain.imp (fun a b hab => by linarith [hab.1])
      exact List.chain'_iff_pairwise.mp hch
    have htsne : timesOf moves ≠ [] := by
      have hlm : (timesOf moves).length = moves.length := List.length_map _ _
      intro h0
      rw [h0] at hlm
      simp at hlm
      omega
    have hbounds : ∀ t ∈ timesOf moves,
        (timesOf moves).headD 0 ≤ t ∧ t ≤ (timesOf moves).getLastD 0 :=
      fun t ht => ⟨sorted_head_le _ hpair t ht, sorted_le_getLastD _ hpair t ht⟩
    have hle : (timesOf moves).headD 0 ≤ (timesOf moves).getLastD 0 := by
      obtain ⟨a, l, hts⟩ : ∃ a l, timesOf moves = a :: l := by
        cases h : timesOf moves with
        | nil => exact absurd h htsne
        | cons a l => exact ⟨a, l, rfl⟩
      have hmem : a ∈ timesOf moves := by
        rw [hts]
        exact List.mem_cons_self a l
      have hhd : (timesOf moves).headD 0 = a := by rw [hts]; rfl
      rw [hhd]
      exact (hbounds a hmem).2
    have hcount := throttleCount_le (timesOf moves) d.last_move_time
      ((timesOf moves).headD 0) ((timesOf moves).getLastD 0) hle hbounds
    have hlink : (processMoves moves d).move_positions.length ≤
        ((timesOf moves).foldl throttleStep (0, d.last_move_time)).1 := by
      have h1 := (processMoves_foldl moves d).1
      rw [hemp] at h1
      simpa using h1
    calc ((processMoves moves d).move_positions.length : ℤ)
        ≤ (((timesOf moves).foldl throttleStep (0, d.last_move_time)).1 : ℤ) := by
          exact_mod_cast hlink
      _ ≤ ⌊((timesOf moves).getLastD 0 - (timesOf moves).headD 0) /
            MOVE_THROTTLE_SEC⌋ + 1 := hcount

/-- Counterexample to the `⌈window/500ms⌉` bound of the claim: thirty
moves spanning exactly 1 s (an exact multiple of 500 ms), all gaps
< 500 ms, leave 3 entries in the buffer while `⌈1s/500ms⌉ = 2`. -/
theorem move_throttle_ceil_refuted :
    (ActivityTracker.init 0).move_positions = [] ∧
    30 ≤ cexMoves.length ∧
    List.Chain' (fun a b => 0 ≤ b - a ∧ b - a < MOVE_THROTTLE_SEC) (timesOf cexMoves) ∧
    ¬(((processMoves cexMoves (ActivityTracker.init 0)).move_positions.length : ℤ) ≤
        ⌈((timesOf cexMoves).getLastD 0 - (timesOf cexMoves).headD 0) /
          MOVE_THROTTLE_SEC⌉) := by
  have hw : ((timesOf cexMoves).getLastD 0 - (timesOf cexMoves).headD 0 : ℚ) = 1 := by
    have hlast : (timesOf cexMoves).getLastD 0 = (660/60 : ℚ) := rfl
    have hhead : (timesOf cexMoves).headD 0 = (600/60 : ℚ) := rfl
    rw [hlast, hhead]
    norm_num
  have h3 : (processMoves cexMoves (ActivityTracker.init 0)).move_positions.length = 3 := by
    norm_num [processMoves, cexMoves, ActivityTracker.on_mouse_move, ActivityTracker.init,
      dequeAppend, MOVE_THROTTLE_SEC, PATTERN_BUFFER_SIZE, List.foldl_cons, List.foldl_nil]
  refine ⟨rfl, by decide, ?_, ?_⟩
  · norm_num [cexMoves, timesOf, MOVE_THROTTLE_SEC, List.chain'_cons]
  · rw [h3, hw, MOVE_THROTTLE_SEC]
    norm_num

/-- Witness for `move_throttle_spec`: the thirty-move 1 s sequence
satisfies the amended bound `⌊1s/500ms⌋ + 1 = 3`, and a move 250 ms
after start is throttled on a fresh tracker whose last recorded move
time is 0. -/
theorem move_throttle_spec_witness :
    (((processMoves cexMoves (ActivityTracker.init 0)).move_positions.length : ℤ) ≤
      ⌊((timesOf cexMoves).getLastD 0 - (timesOf cexMoves).headD 0) /
        MOVE_THROTTLE_SEC⌋ + 1) ∧
    (ActivityTracker.on_mouse_move 3 4 (1/4) (ActivityTracker.init 0)).mouse_count =
      (ActivityTracker.init 0).mouse_count :=
  ⟨move_throttle_spec.2 (ActivityTracker.init 0) cexMoves rfl (by decide)
      (by norm_num [cexMoves, timesOf, MOVE_THROTTLE_SEC, List.chain'_cons]),
   (move_throttle_spec.1 (ActivityTracker.init 0) 3 4 (1/4)
      (by norm_num [ActivityTracker.init, MOVE_THROTTLE_SEC])).1⟩

/-- Counterexample to the claim that corrupt entries are dropped: a
buffer holding a corrupt line and a good POST is flushed with every
replay succeeding, yet the corrupt line is still in the buffer. -/
theorem corrupt_entry_dropped_refuted :
    (flush_buffer (fun _ => some 200) [corruptLine, BufLine.ok goodEntry]).1 = 1 ∧
    (flush_buffer (fun _ => some 200) [corruptLine, BufLine.ok goodEntry]).2 =
      [corruptLine] ∧
    corruptLine ∈ (flush_buffer (fun _ => some 200) [corruptLine, BufLine.ok goodEntry]).2 := by
  exact ⟨by decide, by decide, by decide⟩

end HRAgent
